import Mathlib

/-!
Verification of the adaptive geometry-simplification and export-selection
engine of the Optimization_texture_model repository.

The JavaScript sources `src/ThreeJsUtils.jsx` and `src/simplifyMeshworker.js`
are shallowly embedded below.  Machine floating point numbers are modelled by
exact rationals (for sizes and the retry-ratio arithmetic) and by real numbers
(for the geometric quantities that involve square roots and cosines); external
collaborators (the `SimplifyModifier`, `mergeVertices`, the GLTF exporter, the
JSON codec) are modelled as oracle parameters, exactly as the spec treats them
(black boxes with documented contracts).  Fallible JavaScript code is embedded
with `Except`; a JavaScript `TypeError` raised by a property access on
`undefined` is modelled by an explicit error value.
-/

/-- Errors a JavaScript evaluation can surface.  `typeError` stands for the
TypeError thrown by reading a property of `undefined`. -/
inductive JsError where
  | typeError
  | generic
deriving DecidableEq, Repr

/-! ## Material Group Remapper (`restoreMaterialGroups`, ThreeJsUtils.jsx 321-346) -/

/-- One material group `{start, count, materialIndex}` of a geometry.
`start` and `count` are JavaScript numbers that the remapper manipulates with
integer results (`Math.floor`, subtraction), so they are modelled as `Int`. -/
structure MaterialGroup where
  start : Int
  count : Int
  materialIndex : Nat
deriving DecidableEq, Repr

/-- The slice of a three.js `BufferGeometry` that `restoreMaterialGroups`
reads: whether an index buffer exists (and its length) and the position
attribute count.  `indexCount = none` means the geometry has no index. -/
structure GroupGeom where
  indexCount : Option Nat
  positionCount : Nat
deriving DecidableEq, Repr

/-- `geometry.index ? geometry.index.count : geometry.attributes.position.count`
(ThreeJsUtils.jsx 328-329). -/
def effIndexCount (g : GroupGeom) : Nat :=
  g.indexCount.getD g.positionCount

/-- `scaleFactor = newIndexCount / oldIndexCount` (line 330).  Both counts are
read from the same geometry argument by the same expression. -/
def scaleFactor (g : GroupGeom) : ℚ :=
  (effIndexCount g : ℚ) / (effIndexCount g : ℚ)

/-- The `.map` pass of `restoreMaterialGroups` (lines 331-335): scales each
group's `start` and `count` by `scaleFactor`, floored. -/
def mapGroups (g : GroupGeom) (groups : List MaterialGroup) : List MaterialGroup :=
  groups.map fun gr =>
    ⟨⌊(gr.start : ℚ) * scaleFactor g⌋, ⌊(gr.count : ℚ) * scaleFactor g⌋, gr.materialIndex⟩

/-- One step of the re-packing `forEach` (lines 337-344).  The accumulator is
the running `currentOffset` paired with the groups already emitted.  Note that
after a truncation the running offset keeps its untruncated value, exactly as
in the source. -/
def repackStep (newIndexCount : Int) :
    Int × List MaterialGroup → MaterialGroup → Int × List MaterialGroup :=
  fun acc gr =>
    let start := acc.1
    let offset := acc.1 + gr.count
    let count := if newIndexCount < offset then gr.count - (offset - newIndexCount) else gr.count
    (offset, acc.2 ++ [⟨start, count, gr.materialIndex⟩])

/-- The re-packing pass over all mapped groups. -/
def repackGroups (newIndexCount : Int) (groups : List MaterialGroup) : List MaterialGroup :=
  (groups.foldl (repackStep newIndexCount) (0, [])).2

/-- `restoreMaterialGroups(geometry, materialInfo)` (lines 326-346).  When
`materialInfo` is `null` (no preserved groups) the geometry's groups are left
untouched; otherwise the preserved groups are scaled and re-packed and become
the geometry's new groups. -/
def restoreMaterialGroups (g : GroupGeom) (materialInfo : Option (List MaterialGroup))
    (oldGroups : List MaterialGroup) : List MaterialGroup :=
  match materialInfo with
  | none => oldGroups
  | some groups => repackGroups (effIndexCount g) (mapGroups g groups)

/-- Sum of the `count` fields of a group list. -/
def sumCounts (groups : List MaterialGroup) : Int :=
  (groups.map MaterialGroup.count).sum

/-- `∀ gr ∈ gs, gr.start + gr.count ≤ N`: no group extends past the index
range `[0, N)`. -/
def GroupsWithin (N : Int) (gs : List MaterialGroup) : Prop :=
  ∀ gr ∈ gs, gr.start + gr.count ≤ N

/-! ## Export selection and size reporting (`optimizeModels`,
`applyMinimalCompression`, ThreeJsUtils.jsx 508-1255) -/

/-- The optimization configuration supplied per input file (spec section 3,
default literal at ThreeJsUtils.jsx 530-537). -/
structure OptimizationConfig where
  useDraco : Bool
  useTextureCompression : Bool
  simplifyGeometry : Bool
  removeDuplicates : Bool
  simplificationRatio : ℚ
  preserveNormals : Bool
  embedImages : Bool

/-- An uploaded file: its name and raw byte content (each entry a byte value;
`file.size` is the length of this list). -/
structure FileModel where
  name : String
  bytes : List Nat

/-- `name.endsWith(suffix)` on JavaScript strings, as a suffix test on the
character list. -/
def nameEndsWith (s suffix : String) : Bool :=
  suffix.data.isSuffixOf s.data

/-- `DataView.getUint32(off, true)`: the little-endian 32-bit read used by
`applyMinimalCompression`; `none` models the RangeError thrown when the read
runs past the end of the buffer (caught by the surrounding try). -/
def leUint32 (bytes : List Nat) (off : Nat) : Option Nat :=
  if off + 4 ≤ bytes.length then
    some (bytes.getD off 0 + 256 * bytes.getD (off + 1) 0 +
      65536 * bytes.getD (off + 2) 0 + 16777216 * bytes.getD (off + 3) 0)
  else none

/-- `applyMinimalCompression(file)` (ThreeJsUtils.jsx 1211-1255), returning the
size of the produced blob.  For a `.glb` file with the glTF magic it returns
`buffer.slice(0, 12 + length)` where `length` is the header's declared length
(the slice is clamped to the buffer size); for a `.gltf` file it re-serializes
the parsed JSON (the JSON codec is the external oracle `minifyJson`, `none`
meaning the parse threw); every other path falls through to the last-resort
2%-truncated slice `Math.floor(byteLength * 0.98)`. -/
def applyMinimalCompression (minifyJson : List Nat → Option (List Nat))
    (f : FileModel) : Nat :=
  let n := f.bytes.length
  let fallbackSize := 98 * n / 100
  if nameEndsWith f.name ".glb" then
    match leUint32 f.bytes 0 with
    | some magic =>
      if magic = 0x46546C67 then
        match leUint32 f.bytes 8 with
        | some len => min (12 + len) n
        | none => fallbackSize
      else fallbackSize
    | none => fallbackSize
  else if nameEndsWith f.name ".gltf" then
    match minifyJson f.bytes with
    | some minified => minified.length
    | none => fallbackSize
  else fallbackSize

/-- `isModelSmall` (ThreeJsUtils.jsx 585): fewer than 5000 vertices or under
1 MiB of input. -/
def isModelSmall (originalVertexCount originalSize : Nat) : Bool :=
  decide (originalVertexCount < 5000) || decide (originalSize < 1 * 1024 * 1024)

/-- The tail of the main success path of `optimizeModels` for one file
(ThreeJsUtils.jsx 1054-1123): the returned blob is already built from the best
export candidate, then — if Draco was requested and applied but the best size
exceeds 90% of the original — the *reported* size is replaced by the
guaranteed-reduction figure (5% for small models, 15% otherwise), and finally
the report is clamped to `originalSize * 0.98`.  The first component is the
blob handed back to the caller, the second the reported `optimizedSize`. -/
def mainPathOutcome (useDraco dracoApplied small : Bool) (originalSize : Nat)
    (blob : List Nat) (bestSize : ℚ) : List Nat × ℚ :=
  let clamped :=
    if useDraco && dracoApplied && decide ((originalSize : ℚ) * (9 / 10) < bestSize) then
      (originalSize : ℚ) * (1 - (if small then 5 / 100 else 15 / 100))
    else bestSize
  (blob, min clamped ((originalSize : ℚ) * (98 / 100)))

/-- Which of the per-file result paths of `optimizeModels` produced the
Optimization Result (ThreeJsUtils.jsx 1054-1187): the main path (an export
candidate beat the original, or some optimization was applied), the
no-optimization fallback through `applyMinimalCompression` (line 1138), the
inner-error recovery through `applyMinimalCompression` (line 1163), or the
last-resort 2% truncation when even that compression threw (line 1179). -/
inductive FileOutcome where
  | mainPath (bestSize : ℚ) (blob : List Nat) (dracoApplied : Bool)
  | noOptimization
  | innerError (compressionSucceeded : Bool)

/-- The `optimizedSize` that `optimizeModels` records for one input file,
by result path. -/
def optimizeFileReportedSize (cfg : OptimizationConfig)
    (minifyJson : List Nat → Option (List Nat)) (f : FileModel)
    (originalVertexCount : Nat) (outcome : FileOutcome) : ℚ :=
  let originalSize := f.bytes.length
  match outcome with
  | .mainPath bestSize blob dracoApplied =>
      (mainPathOutcome cfg.useDraco dracoApplied
        (isModelSmall originalVertexCount originalSize) originalSize blob bestSize).2
  | .noOptimization => (applyMinimalCompression minifyJson f : ℚ)
  | .innerError true => (applyMinimalCompression minifyJson f : ℚ)
  | .innerError false => (originalSize : ℚ) * (98 / 100)

/-- The default per-file configuration literal (ThreeJsUtils.jsx 530-537). -/
def defaultConfig : OptimizationConfig :=
  ⟨false, false, false, false, 1 / 10, true, false⟩

/-- A 100-byte `.glb` file whose header magic is valid and whose declared
length field is 88, so that `12 + length` covers the entire buffer: trimming
padding removes nothing. -/
def glbFullLengthFile : FileModel :=
  ⟨"model.glb", [0x67, 0x6C, 0x54, 0x46, 2, 0, 0, 0, 88, 0, 0, 0] ++ List.replicate 88 0⟩

/-! ## Feature profiles and the Feature-Loss Comparator
(`analyzeFeatureSizes` result shape, `checkForLostFeatures`,
ThreeJsUtils.jsx 348-507) -/

/-- The record returned by `analyzeFeatureSizes` (ThreeJsUtils.jsx 497-506).
Counts are integers; the ratios and the complexity are JavaScript numbers,
modelled as reals; `isHighDetail` is the proposition the JS boolean decides. -/
structure FeatureProfile where
  smallFeatureCount : Nat
  thinFeatureCount : Nat
  totalFeatures : Nat
  smallFeatureRatio : ℝ
  thinFeatureRatio : ℝ
  complexityRatio : ℝ
  geometryComplexity : ℝ
  isHighDetail : Prop

/-- The record returned by `checkForLostFeatures` (ThreeJsUtils.jsx 367-373). -/
structure LossAnalysis where
  featuresLost : Prop
  lossRatio : ℝ
  smallFeatureLossRatio : ℝ
  thinFeatureLossRatio : ℝ
  complexityChangeRatio : ℝ

open Classical

/-- The computation of `checkForLostFeatures` (ThreeJsUtils.jsx 348-374) on
the two analyzer results (the source first runs `analyzeFeatureSizes` on the
original and on the simplified geometry; this is the pure core on those two
profiles).  Note the internal `featuresLost` flag uses thresholds 0.12/0.18,
keyed on the *original* profile's high-detail flag. -/
noncomputable def lossAnalysisOf (original simplified : FeatureProfile) : LossAnalysis :=
  let small : ℝ :=
    1 - (simplified.smallFeatureCount : ℝ) / max 1 (original.smallFeatureCount : ℝ)
  let thin : ℝ :=
    1 - (simplified.thinFeatureCount : ℝ) / max 1 (original.thinFeatureCount : ℝ)
  let complexityChange : ℝ :=
    |simplified.geometryComplexity - original.geometryComplexity| /
      max (1 / 10) original.geometryComplexity
  let combined : ℝ := small * (35 / 100) + thin * (45 / 100) + complexityChange * (2 / 10)
  let lossThreshold : ℝ := if original.isHighDetail then 12 / 100 else 18 / 100
  ⟨combined > lossThreshold, combined, small, thin, complexityChange⟩

/-! ## The two retry-loop tuning constant sets: synchronous `simplifyMesh`
(ThreeJsUtils.jsx 159-318) versus the worker `simplifyMesh`
(simplifyMeshworker.js 78-232) -/

/-- Synchronous simplification factor (ThreeJsUtils.jsx 170-184). -/
noncomputable def syncSimplificationFactor (geometryComplexity : ℝ) (ratio : ℚ) : ℚ :=
  if geometryComplexity > 7 / 10 then 15 / 100 * ratio
  else if geometryComplexity > 4 / 10 then 3 / 10 * ratio
  else 7 / 10 * ratio

/-- Synchronous initial target ratio (ThreeJsUtils.jsx 186-187): never plan to
remove more than 40% of vertices. -/
noncomputable def syncInitialTargetRatio (geometryComplexity : ℝ) (ratio : ℚ) : ℚ :=
  max (1 - syncSimplificationFactor geometryComplexity ratio) (6 / 10)

/-- Worker simplification factor (simplifyMeshworker.js 90-100). -/
noncomputable def workerSimplificationFactor (geometryComplexity : ℝ) (ratio : ℚ) : ℚ :=
  if geometryComplexity > 7 / 10 then 85 / 100 * ratio
  else if geometryComplexity > 4 / 10 then 95 / 100 * ratio
  else 98 / 100 * ratio

/-- Worker initial target ratio (simplifyMeshworker.js 102): floor 0.1. -/
noncomputable def workerInitialTargetRatio (geometryComplexity : ℝ) (ratio : ℚ) : ℚ :=
  max (1 - workerSimplificationFactor geometryComplexity ratio) (1 / 10)

/-- `MAX_ATTEMPTS` of the synchronous loop (ThreeJsUtils.jsx 192). -/
def syncMaxAttempts : Nat := 10

/-- `MAX_ATTEMPTS` of the worker loop (simplifyMeshworker.js 106). -/
def workerMaxAttempts : Nat := 5

/-- Synchronous distortion threshold (ThreeJsUtils.jsx 251). -/
noncomputable def syncDistortionThreshold (meshHighDetail : Prop) : ℝ :=
  if meshHighDetail then 1 / 100 else 2 / 100

/-- Synchronous feature-loss threshold used by the retry loop
(ThreeJsUtils.jsx 261): 0.1 high-detail, 0.15 otherwise. -/
noncomputable def syncFeatureLossThreshold (meshHighDetail : Prop) : ℝ :=
  if meshHighDetail then 1 / 10 else 15 / 100

/-- Worker distortion threshold (simplifyMeshworker.js 159). -/
noncomputable def workerDistortionThreshold (meshHighDetail : Prop) : ℝ :=
  if meshHighDetail then 1 / 10 else 15 / 100

/-- Worker feature-loss threshold (simplifyMeshworker.js 166). -/
noncomputable def workerFeatureLossThreshold (meshHighDetail : Prop) : ℝ :=
  if meshHighDetail then 1 / 2 else 6 / 10

/-- A three.js `Vector3`. -/
structure Vec3 where
  x : ℝ
  y : ℝ
  z : ℝ

/-- The bounding-box distortion test shared by both loops (ThreeJsUtils.jsx
253-256, simplifyMeshworker.js 160-163): some axis of the candidate's
bounding box deviates from the original by more than the threshold. -/
def distortionExceeds (threshold : ℝ) (originalSize newSize : Vec3) : Prop :=
  |newSize.x / originalSize.x - 1| > threshold ∨
    |newSize.y / originalSize.y - 1| > threshold ∨
    |newSize.z / originalSize.z - 1| > threshold

/-- `hasLostFeatures` of the synchronous loop (ThreeJsUtils.jsx 258-262): the
loss ratio computed by `checkForLostFeatures` exceeds the loop's own 0.1/0.15
threshold (the 0.12/0.18 `featuresLost` flag inside `checkForLostFeatures` is
not consulted).  `meshHighDetail` is `meshAnalysis.isHighDetail`, the
high-detail flag of the post-dedup geometry's profile. -/
noncomputable def syncHasLostFeatures (meshHighDetail : Prop)
    (originalP candP : FeatureProfile) : Prop :=
  (lossAnalysisOf originalP candP).lossRatio > syncFeatureLossThreshold meshHighDetail

/-- `hasLostFeatures` of the worker loop (simplifyMeshworker.js 165-167). -/
noncomputable def workerHasLostFeatures (meshHighDetail : Prop)
    (originalP candP : FeatureProfile) : Prop :=
  (lossAnalysisOf originalP candP).lossRatio > workerFeatureLossThreshold meshHighDetail

/-- The synchronous loop's whole accept/reject test for one candidate
(ThreeJsUtils.jsx 251-264): distortion or feature loss, with thresholds keyed
on `meshAnalysis.isHighDetail`. -/
noncomputable def syncCandidateRejected (meshHighDetail : Prop)
    (originalSize newSize : Vec3) (originalP candP : FeatureProfile) : Prop :=
  distortionExceeds (syncDistortionThreshold meshHighDetail) originalSize newSize ∨
    syncHasLostFeatures meshHighDetail originalP candP

/-- The worker loop's accept/reject test for one candidate
(simplifyMeshworker.js 159-169). -/
noncomputable def workerCandidateRejected (meshHighDetail : Prop)
    (originalSize newSize : Vec3) (originalP candP : FeatureProfile) : Prop :=
  distortionExceeds (workerDistortionThreshold meshHighDetail) originalSize newSize ∨
    workerHasLostFeatures meshHighDetail originalP candP

/-- A profile with four small and four thin features out of eight, complexity
one half, not high-detail; comparing it with itself yields a loss ratio of
exactly 0. -/
noncomputable def balancedProfile : FeatureProfile :=
  ⟨4, 4, 8, 1 / 2, 1 / 2, 0, 1 / 2, False⟩

/-- A high-detail variant of `balancedProfile` with one small feature, used
for the C3 counterexample. -/
noncomputable def detailOriginalProfile : FeatureProfile :=
  ⟨1, 4, 8, 1 / 8, 1 / 2, 0, 1 / 2, True⟩

/-- A candidate profile that keeps the small feature and three of the four
thin features of `detailOriginalProfile`: the combined loss ratio is
`0.45 * (1 - 3/4) = 0.1125`. -/
noncomputable def detailCandidateProfile : FeatureProfile :=
  ⟨1, 3, 7, 1 / 7, 3 / 7, 0, 1 / 2, True⟩

/-! ## Feature-Size Analyzer (`analyzeFeatureSizes`, ThreeJsUtils.jsx 377-507).
The `Math.random()` draws of the sampling loop are an explicit input list
(one draw per loop iteration), exactly the fixed-sample-set injection the
spec's section 4.1 prescribes for testing. -/

/-- `a - b` on three.js vectors. -/
noncomputable def vsub (a b : Vec3) : Vec3 :=
  ⟨a.x - b.x, a.y - b.y, a.z - b.z⟩

/-- `a + b` on three.js vectors. -/
noncomputable def vadd (a b : Vec3) : Vec3 :=
  ⟨a.x + b.x, a.y + b.y, a.z + b.z⟩

/-- Scalar multiple. -/
noncomputable def vscale (s : ℝ) (a : Vec3) : Vec3 :=
  ⟨s * a.x, s * a.y, s * a.z⟩

/-- `a.cross(b)` of three.js. -/
noncomputable def vcross (a b : Vec3) : Vec3 :=
  ⟨a.y * b.z - a.z * b.y, a.z * b.x - a.x * b.z, a.x * b.y - a.y * b.x⟩

/-- `a.dot(b)` of three.js. -/
noncomputable def vdot (a b : Vec3) : ℝ :=
  a.x * b.x + a.y * b.y + a.z * b.z

/-- `a.length()` of three.js. -/
noncomputable def vlength (a : Vec3) : ℝ :=
  Real.sqrt (a.x ^ 2 + a.y ^ 2 + a.z ^ 2)

/-- The zero vector (`new THREE.Vector3()`). -/
noncomputable def vzero : Vec3 := ⟨0, 0, 0⟩

/-- `v.normalize()` of three.js: `divideScalar(length || 1)`, so the zero
vector stays zero. -/
noncomputable def vnormalize (a : Vec3) : Vec3 :=
  vscale (1 / (if vlength a = 0 then 1 else vlength a)) a

/-- Sum of a list of vectors, starting from `new THREE.Vector3()` and
`add`ing each in turn. -/
noncomputable def vsum (ns : List Vec3) : Vec3 :=
  ns.foldl vadd vzero

/-- The mesh buffer data the analyzer and the normal recomputation read: the
position attribute as a vertex list and the optional triangle index list. -/
structure BufferGeom where
  positions : List Vec3
  indices : Option (List Nat)

/-- The triangle count: `indices.length / 3` for indexed geometry, vertex
count `/ 3` otherwise (the flat JS array length divided by 9). -/
def numFaces (g : BufferGeom) : Nat :=
  match g.indices with
  | some l => l.length / 3
  | none => g.positions.length / 3

/-- Vertex index of slot `k` (`indices[k]` for indexed geometry, `k` itself
otherwise). -/
def faceVertIdx (indices : Option (List Nat)) (k : Nat) : Nat :=
  match indices with
  | some l => l.getD k 0
  | none => k

/-- Position of vertex `i`. -/
noncomputable def posAt (g : BufferGeom) (i : Nat) : Vec3 :=
  g.positions.getD i vzero

/-- Size of the axis-aligned bounding box of all vertices
(`Box3.setFromObject` followed by `getSize`). -/
noncomputable def boxSize (g : BufferGeom) : Vec3 :=
  match g.positions with
  | [] => vzero
  | p :: ps =>
    ⟨ps.foldl (fun m q => max m q.x) p.x - ps.foldl (fun m q => min m q.x) p.x,
      ps.foldl (fun m q => max m q.y) p.y - ps.foldl (fun m q => min m q.y) p.y,
      ps.foldl (fun m q => max m q.z) p.z - ps.foldl (fun m q => min m q.z) p.z⟩

/-- The distinct triangles the sampling loop actually processes, in first-draw
order: the loop runs `min(10000, triangleCount)` iterations, draws one face
index per iteration, and `continue`s on duplicates (ThreeJsUtils.jsx 406-414). -/
def sampledDraws (nFaces : Nat) (draws : List Nat) : List Nat :=
  (draws.take (min 10000 nFaces)).foldl
    (fun acc f => if f ∈ acc then acc else acc ++ [f]) []

/-- The three edge lengths of triangle `f` (ThreeJsUtils.jsx 445-447). -/
noncomputable def triSides (g : BufferGeom) (f : Nat) : ℝ × ℝ × ℝ :=
  let p1 := posAt g (faceVertIdx g.indices (3 * f))
  let p2 := posAt g (faceVertIdx g.indices (3 * f + 1))
  let p3 := posAt g (faceVertIdx g.indices (3 * f + 2))
  (vlength (vsub p2 p1), vlength (vsub p3 p2), vlength (vsub p1 p3))

/-- Heron's formula with the radicand clamped to `≥ 0`
(ThreeJsUtils.jsx 450-451). -/
noncomputable def triArea (g : BufferGeom) (f : Nat) : ℝ :=
  let sides := triSides g f
  let s := (sides.1 + sides.2.1 + sides.2.2) / 2
  Real.sqrt (max 0 (s * (s - sides.1) * (s - sides.2.1) * (s - sides.2.2)))

/-- A triangle is small when its area is below the squared small-feature
threshold (ThreeJsUtils.jsx 468). -/
noncomputable def isSmallTri (g : BufferGeom) (smallThreshold : ℝ) (f : Nat) : Prop :=
  triArea g f < smallThreshold * smallThreshold

/-- A triangle is thin when its aspect ratio exceeds 8 (`Infinity` when the
shortest side is zero) or its shortest side is below the thin-feature
threshold (ThreeJsUtils.jsx 473-478). -/
noncomputable def isThinTri (g : BufferGeom) (thinThreshold : ℝ) (f : Nat) : Prop :=
  let sides := triSides g f
  let minSide := min sides.1 (min sides.2.1 sides.2.2)
  let maxSide := max sides.1 (max sides.2.1 sides.2.2)
  (if 0 < minSide then maxSide / minSide > 8 else True) ∨ minSide < thinThreshold

/-- `Math.round`: round half up. -/
noncomputable def jsRound (x : ℝ) : Int :=
  ⌊x + 1 / 2⌋

/-- The centroid of triangle `f` (ThreeJsUtils.jsx 456-458). -/
noncomputable def triCenter (g : BufferGeom) (f : Nat) : Vec3 :=
  let p1 := posAt g (faceVertIdx g.indices (3 * f))
  let p2 := posAt g (faceVertIdx g.indices (3 * f + 1))
  let p3 := posAt g (faceVertIdx g.indices (3 * f + 2))
  vscale (1 / 3) (vadd (vadd p1 p2) p3)

/-- The density-map key: the centroid coordinates times 100, rounded
(ThreeJsUtils.jsx 459). -/
noncomputable def densityKey (g : BufferGeom) (f : Nat) : Int × Int × Int :=
  (jsRound ((triCenter g f).x * 100), jsRound ((triCenter g f).y * 100),
    jsRound ((triCenter g f).z * 100))

/-- One bucket of the spatial density map: how many sampled triangles hit it
and whether any of them were small / thin. -/
structure DensityEntry where
  count : Nat
  small : Prop
  thin : Prop

/-- Insert one sampled triangle into the density map (ThreeJsUtils.jsx
461-481): create the bucket on first hit, then bump its count and or-in the
small/thin flags.  JavaScript `Map` iteration order is insertion order, which
the association list preserves. -/
def updateDensity (m : List ((Int × Int × Int) × DensityEntry)) (k : Int × Int × Int)
    (s t : Prop) : List ((Int × Int × Int) × DensityEntry) :=
  match m with
  | [] => [(k, ⟨1, s, t⟩)]
  | (k', e) :: rest =>
    if k = k' then (k', ⟨e.count + 1, e.small ∨ s, e.thin ∨ t⟩) :: rest
    else (k', e) :: updateDensity rest k s t

/-- The per-triangle accumulation of the sampling loop: small count, thin
count, density map. -/
noncomputable def analyzerFold (g : BufferGeom) (smallThreshold thinThreshold : ℝ)
    (st : Nat × Nat × List ((Int × Int × Int) × DensityEntry)) (f : Nat) :
    Nat × Nat × List ((Int × Int × Int) × DensityEntry) :=
  let s := isSmallTri g smallThreshold f
  let t := isThinTri g thinThreshold f
  ((if s then st.1 + 1 else st.1), (if t then st.2.1 + 1 else st.2.1),
    updateDensity st.2.2 (densityKey g f) s t)

/-- The sampling loop's final counters and density map. -/
noncomputable def analyzerCounts (g : BufferGeom) (draws : List Nat) :
    Nat × Nat × List ((Int × Int × Int) × DensityEntry) :=
  let diag := vlength (boxSize g)
  let smallThreshold := diag * (1 / 1000)
  let thinThreshold := diag * (2 / 1000)
  (sampledDraws (numFaces g) draws).foldl (analyzerFold g smallThreshold thinThreshold)
    (0, 0, [])

/-- `totalFeatures`: incremented once per processed (deduplicated) sample. -/
def analyzerTotal (g : BufferGeom) (draws : List Nat) : Nat :=
  (sampledDraws (numFaces g) draws).length

/-- `complexityRatio` (ThreeJsUtils.jsx 485-492): buckets with more than two
triangles and a small-or-thin flag, over all non-empty buckets. -/
noncomputable def analyzerComplexityRatio (g : BufferGeom) (draws : List Nat) : ℝ :=
  let dmap := (analyzerCounts g draws).2.2
  let highDetailAreas :=
    (dmap.filter fun e => decide (2 < e.2.count) && decide (e.2.small ∨ e.2.thin)).length
  (highDetailAreas : ℝ) / max 1 (dmap.length : ℝ)

/-- The final record assembly of `analyzeFeatureSizes`
(ThreeJsUtils.jsx 493-506): `geometryComplexity` is the weighted sum capped by
`Math.min(1, ...)`, and `isHighDetail` compares the *uncapped* weighted sum
with `0.4`. -/
noncomputable def mkProfile (small thin total : Nat) (complexityRatio : ℝ) :
    FeatureProfile :=
  let smallRatio := (small : ℝ) / max 1 (total : ℝ)
  let thinRatio := (thin : ℝ) / max 1 (total : ℝ)
  let raw := smallRatio * (6 / 10) + thinRatio * (4 / 10) + complexityRatio * (5 / 10)
  ⟨small, thin, total, smallRatio, thinRatio, complexityRatio, min 1 raw, raw > 4 / 10⟩

/-- `analyzeFeatureSizes(geometry)` with the random draws made explicit. -/
noncomputable def analyzeFeatureSizes (g : BufferGeom) (draws : List Nat) :
    FeatureProfile :=
  mkProfile (analyzerCounts g draws).1 (analyzerCounts g draws).2.1
    (analyzerTotal g draws) (analyzerComplexityRatio g draws)

/-- A single right triangle in the xy plane, non-indexed. -/
noncomputable def witnessTriangleGeom : BufferGeom :=
  ⟨[⟨0, 0, 0⟩, ⟨1, 0, 0⟩, ⟨0, 1, 0⟩], none⟩

/-! ## Crease-Aware Normal Recomputation (`toCreasedNormals`,
ThreeJsUtils.jsx 11-116) -/

/-- The face indices incident to vertex `v`, in face order, one entry per
slot of the face that names `v` (ThreeJsUtils.jsx 50-63: each face pushes
itself onto `vertexFaces` once per vertex slot). -/
def vertexFaceIdxs (faceCount : Nat) (indices : Option (List Nat)) (v : Nat) : List Nat :=
  (List.range faceCount).flatMap fun i =>
    (if faceVertIdx indices (3 * i) = v then [i] else []) ++
      (if faceVertIdx indices (3 * i + 1) = v then [i] else []) ++
      (if faceVertIdx indices (3 * i + 2) = v then [i] else [])

/-- The face normal of triangle `i` (ThreeJsUtils.jsx 39-45):
`normalize((pC - pB) x (pA - pB))`. -/
noncomputable def faceNormal (g : BufferGeom) (i : Nat) : Vec3 :=
  let pA := posAt g (faceVertIdx g.indices (3 * i))
  let pB := posAt g (faceVertIdx g.indices (3 * i + 1))
  let pC := posAt g (faceVertIdx g.indices (3 * i + 2))
  vnormalize (vcross (vsub pC pB) (vsub pA pB))

/-- The face normals of all triangles touching vertex `v`
(`vertexNormals[v]`, ThreeJsUtils.jsx 56-63). -/
noncomputable def incidentNormals (g : BufferGeom) (v : Nat) : List Vec3 :=
  (vertexFaceIdxs (numFaces g) g.indices v).map (faceNormal g)

/-- One clustering group of the third pass: the reference normal it was
created with and its member normals (ThreeJsUtils.jsx 70-91). -/
structure NormalGroup where
  reference : Vec3
  normals : List Vec3

/-- Insert one face normal into the group list: it joins the first group
whose reference normal's dot product with it exceeds `creaseDot`, else a new
group (with itself as reference) is appended at the end
(ThreeJsUtils.jsx 73-91). -/
noncomputable def insertNormal (creaseDot : ℝ) : List NormalGroup → Vec3 → List NormalGroup
  | [], n => [⟨n, [n]⟩]
  | gp :: rest, n =>
    if vdot n gp.reference > creaseDot then ⟨gp.reference, gp.normals ++ [n]⟩ :: rest
    else gp :: insertNormal creaseDot rest n

/-- The greedy clustering of a vertex's face normals. -/
noncomputable def normalGroups (creaseDot : ℝ) (ns : List Vec3) : List NormalGroup :=
  ns.foldl (insertNormal creaseDot) []

/-- The group with the most normals, first wins ties
(ThreeJsUtils.jsx 93-99). -/
noncomputable def dominantGroup (gs : List NormalGroup) : NormalGroup :=
  gs.foldl (fun d gp => if gp.normals.length > d.normals.length then gp else d)
    (gs.headD ⟨vzero, []⟩)

/-- The final normal of one vertex (ThreeJsUtils.jsx 66-112): zero (the
`Float32Array` initial value) when no face touches it, else the normalized
sum of the dominant group's normals. -/
noncomputable def creasedNormal (creaseDot : ℝ) (ns : List Vec3) : Vec3 :=
  match ns with
  | [] => vzero
  | _ :: _ => vnormalize (vsum (dominantGroup (normalGroups creaseDot ns)).normals)

/-- `Math.cos(creaseAngle * Math.PI / 180)` (ThreeJsUtils.jsx 13). -/
noncomputable def creaseDotOf (creaseAngle : ℝ) : ℝ :=
  Real.cos (creaseAngle * Real.pi / 180)

/-- `toCreasedNormals(geometry, creaseAngle)` read back at vertex `v`: the
entry the normal buffer holds for `v` after the pass. -/
noncomputable def toCreasedNormals (g : BufferGeom) (creaseAngle : ℝ) (v : Nat) : Vec3 :=
  creasedNormal (creaseDotOf creaseAngle) (incidentNormals g v)

/-- The spec's description of the clustering (spec section 4.2), stated
independently: clusters are plain lists, a normal joins the first cluster
whose reference normal (the cluster's founding normal, kept at its head) has
dot product exceeding `cos(creaseAngleDegrees)`, else founds a new cluster. -/
noncomputable def specInsertCluster (creaseDot : ℝ) :
    List (List Vec3) → Vec3 → List (List Vec3)
  | [], n => [[n]]
  | c :: rest, n =>
    if vdot n (c.headD vzero) > creaseDot then (c ++ [n]) :: rest
    else c :: specInsertCluster creaseDot rest n

/-- The spec-side greedy clustering of a list of face normals. -/
noncomputable def specClusters (creaseDot : ℝ) (ns : List Vec3) : List (List Vec3) :=
  ns.foldl (specInsertCluster creaseDot) []

/-- Well-formedness of the source's group list: every group is nonempty and
keeps its reference at the head of its member list. -/
def GroupsWF (gs : List NormalGroup) : Prop :=
  ∀ gp ∈ gs, gp.normals ≠ [] ∧ gp.normals.headD vzero = gp.reference

/-! ## The synchronous Adaptive Simplifier (`simplifyMesh`,
ThreeJsUtils.jsx 120-319).  The external `SimplifyModifier.modify` and
`mergeVertices` primitives are oracles; one candidate carries everything the
accept/reject logic reads about the attempt: the resulting vertex count, the
candidate's bounding-box size after creasing, and the two analyzer profiles
`checkForLostFeatures` produces for this attempt (the sampling is random, so
the profiles are per-attempt inputs). -/

/-- What one simplification attempt yields. -/
structure Candidate where
  vertexCount : Nat
  newSize : Vec3
  originalProfile : FeatureProfile
  candidateProfile : FeatureProfile

/-- The oracle environment of one `simplifyMesh` call. -/
structure SimplifyEnv where
  mergeResult : Except Unit Nat
  modifyResult : Nat → Int → Except Unit Candidate
  meshProfile : FeatureProfile
  originalBoxSize : Vec3

/-- A geometry as `simplifyMesh` sees it: `positionCount = none` models a
geometry whose `attributes.position` is `undefined`. -/
structure GeomModel where
  positionCount : Option Nat

/-- The mesh argument: `geometry = none` models a falsy `mesh.geometry`. -/
structure MeshModel where
  geometry : Option GeomModel

/-- What `simplifyMesh` leaves behind: the returned boolean, the vertex count
of the geometry the mesh ends up with, and — when the loop accepted a
simplified candidate and replaced `mesh.geometry` — that candidate's vertex
count. -/
structure SyncResult where
  returnValue : Bool
  finalVertexCount : Nat
  acceptedVertexCount : Option Nat
deriving DecidableEq, Repr

/-- The retry loop (`while (!simplificationSuccessful && attempts <
MAX_ATTEMPTS)`, ThreeJsUtils.jsx 194-309), with the remaining attempt budget
as fuel.  An `Except.error` is an exception escaping the loop into the
`catch` of line 314. -/
noncomputable def simplifyLoop (env : SimplifyEnv) (originalVertexCount : Nat) :
    Nat → Nat → ℚ → Nat → Bool → Except Unit SyncResult
  | 0, _, _, bestVC, modified => Except.ok ⟨modified, bestVC, none⟩
  | fuel + 1, attempt, ratio, bestVC, modified =>
    let targetCount : Int := min ⌊(originalVertexCount : ℚ) * ratio⌋ ((bestVC : Int) - 1)
    if (bestVC : Int) ≤ targetCount then Except.ok ⟨modified, bestVC, none⟩
    else
      match env.modifyResult attempt targetCount with
      | Except.error e => Except.error e
      | Except.ok cand =>
        if originalVertexCount ≤ cand.vertexCount then
          simplifyLoop env originalVertexCount fuel (attempt + 1)
            (min (ratio + 1 / 10) (98 / 100)) bestVC modified
        else if originalVertexCount < cand.vertexCount then
          simplifyLoop env originalVertexCount fuel (attempt + 1)
            (min (ratio + 1 / 10) (98 / 100)) bestVC modified
        else if syncCandidateRejected env.meshProfile.isHighDetail env.originalBoxSize
            cand.newSize cand.originalProfile cand.candidateProfile then
          if (9 : ℚ) / 10 < min (ratio + 5 / 100) (98 / 100) then
            Except.ok ⟨modified, bestVC, none⟩
          else
            simplifyLoop env originalVertexCount fuel (attempt + 1)
              (min (ratio + 5 / 100) (98 / 100)) bestVC modified
        else if cand.vertexCount < bestVC then
          Except.ok ⟨true, cand.vertexCount, some cand.vertexCount⟩
        else
          simplifyLoop env originalVertexCount fuel (attempt + 1)
            (min (ratio + 5 / 100) (98 / 100)) bestVC modified

/-- `simplifyMesh(mesh, optimizationConfig)` (ThreeJsUtils.jsx 120-319).
Note the structure of the source: the `!mesh.geometry ||
!optimizationConfig.simplifyGeometry` guard returns `false` first (line 121);
`originalGeometry.attributes.position.count` is then read *outside* the
`try` (line 126), so a geometry without a position attribute raises an
uncaught TypeError; duplicate removal (lines 135-153) has its own try/catch
and only applies a merge that does not increase the vertex count; the retry
loop runs inside the big `try`, whose `catch` returns `false` (lines
314-317). -/
noncomputable def simplifyMeshSync (env : SimplifyEnv) (mesh : MeshModel)
    (cfg : OptimizationConfig) : Except JsError SyncResult :=
  match mesh.geometry with
  | none => Except.ok ⟨false, 0, none⟩
  | some geom =>
    if cfg.simplifyGeometry then
      match geom.positionCount with
      | none => Except.error JsError.typeError
      | some originalVertexCount =>
        let dedup : Nat × Bool :=
          if cfg.removeDuplicates then
            match env.mergeResult with
            | Except.ok mergedCount =>
              if mergedCount ≤ originalVertexCount then (mergedCount, true)
              else (originalVertexCount, false)
            | Except.error _ => (originalVertexCount, false)
          else (originalVertexCount, false)
        let ratio0 := syncInitialTargetRatio env.meshProfile.geometryComplexity
          cfg.simplificationRatio
        match simplifyLoop env originalVertexCount syncMaxAttempts 0 ratio0 dedup.1 dedup.2 with
        | Except.error _ => Except.ok ⟨false, dedup.1, none⟩
        | Except.ok res => Except.ok res
    else Except.ok ⟨false, (geom.positionCount.getD 0), none⟩

/-- A profile of a simple geometry: complexity 0, not high-detail. -/
noncomputable def simpleMeshProfile : FeatureProfile :=
  ⟨0, 0, 1, 0, 0, 0, 0, False⟩

/-- A candidate that reduces 100 vertices to 60 with an unchanged bounding
box and no feature loss. -/
noncomputable def acceptCandidate : Candidate :=
  ⟨60, ⟨1, 1, 1⟩, balancedProfile, balancedProfile⟩

/-- An oracle environment whose modifier always yields `acceptCandidate`. -/
noncomputable def acceptEnv : SimplifyEnv :=
  ⟨Except.error (), fun _ _ => Except.ok acceptCandidate, simpleMeshProfile, ⟨1, 1, 1⟩⟩

/-- A configuration that only asks for geometry simplification, ratio 0.5. -/
def simplifyOnlyConfig : OptimizationConfig :=
  ⟨false, false, true, false, 1 / 2, true, false⟩

/-- An environment whose oracles all fail (their values are irrelevant for
the C6 failing input: the TypeError fires before any oracle is consulted). -/
noncomputable def trivialEnv : SimplifyEnv :=
  ⟨Except.error (), fun _ _ => Except.error (), simpleMeshProfile, vzero⟩

/-- A mesh whose geometry exists but has no position attribute. -/
def noPositionMesh : MeshModel := ⟨some ⟨none⟩⟩

/-! ## Theorems -/

theorem sumCounts_append (a b : List MaterialGroup) :
    sumCounts (a ++ b) = sumCounts a + sumCounts b := by
  simp [sumCounts]

theorem sumCounts_singleton (gr : MaterialGroup) : sumCounts [gr] = gr.count := by
  simp [sumCounts]

/-- Invariant of the re-packing fold: the emitted counts sum to at most
`min offset N`, and every emitted group satisfies `start + count ≤ N`. -/
theorem repack_fold_invariant (N : Int) (groups : List MaterialGroup) :
    ∀ (offset : Int) (acc : List MaterialGroup),
      sumCounts acc ≤ min offset N →
      (∀ gr ∈ acc, gr.start + gr.count ≤ N) →
      sumCounts (groups.foldl (repackStep N) (offset, acc)).2 ≤
          min (groups.foldl (repackStep N) (offset, acc)).1 N ∧
        ∀ gr ∈ (groups.foldl (repackStep N) (offset, acc)).2, gr.start + gr.count ≤ N := by
  induction groups with
  | nil => intro offset acc hsum hmem; exact ⟨hsum, hmem⟩
  | cons gr rest ih =>
    intro offset acc hsum hmem
    simp only [List.foldl_cons]
    have hstep : repackStep N (offset, acc) gr =
        (offset + gr.count,
          acc ++ [⟨offset,
            if N < offset + gr.count then gr.count - (offset + gr.count - N) else gr.count,
            gr.materialIndex⟩]) := rfl
    rw [hstep]
    apply ih
    · rw [sumCounts_append]
      have hminN : sumCounts acc ≤ N := le_trans hsum (min_le_right _ _)
      have hminO : sumCounts acc ≤ offset := le_trans hsum (min_le_left _ _)
      by_cases hcase : N < offset + gr.count
      · simp only [if_pos hcase, sumCounts_singleton]
        rw [le_min_iff]
        constructor <;> omega
      · simp only [if_neg hcase, sumCounts_singleton]
        rw [le_min_iff]
        push_neg at hcase
        constructor <;> omega
    · intro g hg
      rcases List.mem_append.mp hg with hg | hg
      · exact hmem g hg
      · have hminO : sumCounts acc ≤ offset := le_trans hsum (min_le_left _ _)
        rcases List.mem_singleton.mp hg with rfl
        by_cases hcase : N < offset + gr.count
        · simp only [if_pos hcase]; omega
        · simp only [if_neg hcase]; push_neg at hcase; omega

theorem scaleFactor_eq_one (g : GroupGeom) (h : 0 < effIndexCount g) :
    scaleFactor g = 1 := by
  have hne : ((effIndexCount g : ℚ)) ≠ 0 := by
    exact_mod_cast Nat.pos_iff_ne_zero.mp h
  exact div_self hne

theorem mapGroups_eq_self (g : GroupGeom) (groups : List MaterialGroup)
    (h : 0 < effIndexCount g) : mapGroups g groups = groups := by
  unfold mapGroups
  rw [scaleFactor_eq_one g h]
  simp only [mul_one, Int.floor_intCast]
  exact List.map_id _

/-- C4 counterexample: on a geometry with 3 indices and preserved groups
`{start 0, count 5}`, `{start 5, count 5}` (a simplified geometry whose index
count shrank below the original groups' coverage, the situation the remapper
exists for), `restoreMaterialGroups` emits a second group with `start = 5`,
which is not `< newIndexCount = 3`;  the claim that after remapping no group
starts beyond the index range is false.  (The repacked second group even has a
negative count, because the running offset is not clamped after truncation.) -/
theorem c4_counterexample :
    restoreMaterialGroups ⟨some 3, 0⟩ (some [⟨0, 5, 0⟩, ⟨5, 5, 1⟩]) [] =
        [⟨0, 3, 0⟩, ⟨5, -2, 1⟩] ∧
      ¬ (∀ gr ∈ restoreMaterialGroups ⟨some 3, 0⟩ (some [⟨0, 5, 0⟩, ⟨5, 5, 1⟩]) [],
          gr.start < (effIndexCount ⟨some 3, 0⟩ : Int)) := by
  have hmap : mapGroups ⟨some 3, 0⟩ [⟨0, 5, 0⟩, ⟨5, 5, 1⟩] = [⟨0, 5, 0⟩, ⟨5, 5, 1⟩] :=
    mapGroups_eq_self ⟨some 3, 0⟩ [⟨0, 5, 0⟩, ⟨5, 5, 1⟩] (by decide)
  simp only [restoreMaterialGroups, hmap]
  decide

/-- C4 amended: after `restoreMaterialGroups` runs with preserved groups, the
sum of all group counts is at most the geometry's index count and every group
satisfies `start + count ≤ newIndexCount`; but a group's `start` may land at
or beyond `newIndexCount` when the counts of the preceding groups overflow the
range, because the running offset keeps its untruncated value. -/
theorem c4_amended_repack_bounds (g : GroupGeom) (groups oldGroups : List MaterialGroup) :
    sumCounts (restoreMaterialGroups g (some groups) oldGroups) ≤ (effIndexCount g : Int) ∧
      GroupsWithin (effIndexCount g) (restoreMaterialGroups g (some groups) oldGroups) := by
  have hinit : sumCounts ([] : List MaterialGroup) ≤ min 0 (effIndexCount g : Int) := by
    simp only [sumCounts, List.map_nil, List.sum_nil, le_min_iff]
    exact ⟨le_refl 0, Int.ofNat_nonneg _⟩
  have h := repack_fold_invariant (effIndexCount g) (mapGroups g groups) 0 [] hinit
    (by intro gr hgr; simp at hgr)
  refine ⟨le_trans h.1 (min_le_right _ _), ?_⟩
  exact h.2

/-- C10: `restoreMaterialGroups` reads its old index count and its new index
count from the same geometry argument, so (whenever the geometry has a
nonzero index count, as the Mesh Buffer invariant demands for a geometry that
carries groups) its scale factor is identically 1 and the `.map` pass leaves
every group's `start` and `count` unchanged: group ranges are never
proportionally rescaled. -/
theorem c10_scale_factor_one (g : GroupGeom) (groups : List MaterialGroup)
    (h : 0 < effIndexCount g) :
    scaleFactor g = 1 ∧ mapGroups g groups = groups :=
  ⟨scaleFactor_eq_one g h, mapGroups_eq_self g groups h⟩

/-- C1 counterexample: when no export candidate beats the original and no
optimization was applied, the Optimization Result's `optimizedSize` is
whatever `applyMinimalCompression` returns, and for a valid GLB whose header
length covers the whole file that is the full original size: 100 for this
100-byte file, which is not at most `originalSize * 0.98 = 98`.  The 0.98
clamp of line 1123 exists only on the main path. -/
theorem c1_counterexample :
    glbFullLengthFile.bytes.length = 100 ∧
      optimizeFileReportedSize defaultConfig (fun _ => none) glbFullLengthFile 0
          FileOutcome.noOptimization = 100 ∧
      ¬ (optimizeFileReportedSize defaultConfig (fun _ => none) glbFullLengthFile 0
          FileOutcome.noOptimization ≤ (glbFullLengthFile.bytes.length : ℚ) * (98 / 100)) := by
  have happly : applyMinimalCompression (fun _ => none) glbFullLengthFile = 100 := by decide
  have hlen : glbFullLengthFile.bytes.length = 100 := by decide
  refine ⟨hlen, ?_, ?_⟩
  · simp [optimizeFileReportedSize, happly]
  · simp only [optimizeFileReportedSize, happly, hlen]
    norm_num

/-- C1 amended: the reported `optimizedSize` is at most `originalSize * 0.98`
on the main path (where line 1123 clamps it) and is exactly
`originalSize * 0.98` on the last-resort error path; but on the paths that
report `applyMinimalCompression`'s blob size (no optimization applied, or
inner error with successful minimal compression) the bound can fail, up to
the full original size. -/
theorem c1_amended_reported_size_bound (cfg : OptimizationConfig)
    (minifyJson : List Nat → Option (List Nat)) (f : FileModel)
    (originalVertexCount : Nat) (bestSize : ℚ) (blob : List Nat) (dracoApplied : Bool) :
    optimizeFileReportedSize cfg minifyJson f originalVertexCount
        (FileOutcome.mainPath bestSize blob dracoApplied) ≤
        (f.bytes.length : ℚ) * (98 / 100) ∧
      optimizeFileReportedSize cfg minifyJson f originalVertexCount
        (FileOutcome.innerError false) = (f.bytes.length : ℚ) * (98 / 100) := by
  constructor
  · exact min_le_right _ _
  · rfl

/-- C7: when Draco was requested and applied but the best export candidate's
byte size exceeds `0.9 * originalSize`, the reported size becomes
`originalSize * (1 - r)` with `r = 0.05` for small models and `0.15`
otherwise (the subsequent 0.98 clamp never undoes this, since `1 - r ≤ 0.98`),
while the returned blob is exactly the one built from the best candidate
before the clamp: a reporting floor only, no re-encoding. -/
theorem c7_draco_reporting_floor (originalSize originalVertexCount : Nat)
    (blob : List Nat) (bestSize : ℚ)
    (h : (originalSize : ℚ) * (9 / 10) < bestSize) :
    (mainPathOutcome true true (isModelSmall originalVertexCount originalSize)
        originalSize blob bestSize).1 = blob ∧
      (mainPathOutcome true true (isModelSmall originalVertexCount originalSize)
          originalSize blob bestSize).2 =
        (originalSize : ℚ) *
          (1 - (if isModelSmall originalVertexCount originalSize then 5 / 100 else 15 / 100)) := by
  refine ⟨rfl, ?_⟩
  simp only [mainPathOutcome, Bool.true_and, decide_eq_true h, if_true]
  have hnn : (0 : ℚ) ≤ (originalSize : ℚ) := Nat.cast_nonneg _
  apply min_eq_left
  by_cases hsmall : isModelSmall originalVertexCount originalSize
  · rw [if_pos hsmall]
    apply mul_le_mul_of_nonneg_left _ hnn
    norm_num
  · rw [if_neg hsmall]
    apply mul_le_mul_of_nonneg_left _ hnn
    norm_num

/-- C7 witness: a 2 MB, 10000-vertex model (not small) whose best Draco
candidate only reached 1.9 MB: the report becomes 2000000 * 0.85. -/
theorem c7_witness :
    ((2000000 : ℚ) * (9 / 10) < 1900000) ∧
      ((mainPathOutcome true true (isModelSmall 10000 2000000) 2000000 [] 1900000).1 = [] ∧
        (mainPathOutcome true true (isModelSmall 10000 2000000) 2000000 [] 1900000).2 =
          (2000000 : ℚ) * (1 - (if isModelSmall 10000 2000000 then 5 / 100 else 15 / 100))) :=
  ⟨by norm_num, c7_draco_reporting_floor 2000000 10000 [] 1900000 (by norm_num)⟩

/-- C10 witness: a concrete geometry with index count 3 and one group. -/
theorem c10_witness :
    0 < effIndexCount ⟨some 3, 0⟩ ∧
      (scaleFactor ⟨some 3, 0⟩ = 1 ∧ mapGroups ⟨some 3, 0⟩ [⟨1, 2, 0⟩] = [⟨1, 2, 0⟩]) :=
  ⟨by decide, c10_scale_factor_one ⟨some 3, 0⟩ [⟨1, 2, 0⟩] (by decide)⟩

theorem lossRatio_balanced_self :
    (lossAnalysisOf balancedProfile balancedProfile).lossRatio = 0 := by
  unfold lossAnalysisOf balancedProfile
  norm_num

/-- C2 counterexample: the worker simplifier does not make bit-identical
accept/reject decisions to the synchronous one on the same inputs.  On a
candidate with a 5% bounding-box deviation on the x axis and zero feature
loss (not high-detail), the synchronous loop rejects (threshold 0.02) while
the worker accepts (threshold 0.15); the attempt limits (10 vs 5) and the
initial target ratios (0.65 vs 0.51 at complexity 0, ratio 0.5) differ too. -/
theorem c2_counterexample :
    syncCandidateRejected False ⟨1, 1, 1⟩ ⟨21 / 20, 1, 1⟩ balancedProfile balancedProfile ∧
      ¬ workerCandidateRejected False ⟨1, 1, 1⟩ ⟨21 / 20, 1, 1⟩ balancedProfile balancedProfile ∧
      syncMaxAttempts ≠ workerMaxAttempts ∧
      syncInitialTargetRatio 0 (1 / 2) ≠ workerInitialTargetRatio 0 (1 / 2) := by
  have habs : |(1 : ℝ) / 20| = 1 / 20 := abs_of_nonneg (by norm_num)
  refine ⟨?_, ?_, by decide, ?_⟩
  · left
    unfold distortionExceeds syncDistortionThreshold
    rw [if_neg not_false]
    left
    norm_num [habs]
  · intro h
    rcases h with hd | hl
    · unfold distortionExceeds workerDistortionThreshold at hd
      rw [if_neg not_false] at hd
      rcases hd with h1 | h2 | h3
      · norm_num [habs] at h1
      · norm_num at h2
      · norm_num at h3
    · unfold workerHasLostFeatures workerFeatureLossThreshold at hl
      rw [lossRatio_balanced_self, if_neg not_false] at hl
      norm_num at hl
  · unfold syncInitialTargetRatio workerInitialTargetRatio
      syncSimplificationFactor workerSimplificationFactor
    have h7 : ¬ ((0 : ℝ) > 7 / 10) := by norm_num
    have h4 : ¬ ((0 : ℝ) > 4 / 10) := by norm_num
    rw [if_neg h7, if_neg h7, if_neg h4, if_neg h4]
    norm_num

/-- C2 amended: the two simplifiers share the decision structure (reject when
the bounding box distorts beyond a threshold or the loss ratio exceeds a
threshold) but every tuning constant differs — factors 0.85/0.95/0.98 vs
0.15/0.3/0.7, target-ratio floor 0.1 vs 0.6, 5 vs 10 attempts, distortion
thresholds 0.1/0.15 vs 0.01/0.02, feature-loss thresholds 0.5/0.6 vs
0.1/0.15 — so decisions are not bit-identical; the worker is strictly more
permissive: every candidate it rejects, the synchronous loop also rejects
(equivalently, every candidate the synchronous loop accepts, the worker
accepts). -/
theorem c2_amended_worker_more_permissive (meshHighDetail : Prop)
    (originalSize newSize : Vec3) (originalP candP : FeatureProfile)
    (h : workerCandidateRejected meshHighDetail originalSize newSize originalP candP) :
    syncCandidateRejected meshHighDetail originalSize newSize originalP candP := by
  have hdist : syncDistortionThreshold meshHighDetail ≤
      workerDistortionThreshold meshHighDetail := by
    unfold syncDistortionThreshold workerDistortionThreshold
    by_cases hm : meshHighDetail
    · rw [if_pos hm, if_pos hm]; norm_num
    · rw [if_neg hm, if_neg hm]; norm_num
  have hloss : syncFeatureLossThreshold meshHighDetail ≤
      workerFeatureLossThreshold meshHighDetail := by
    unfold syncFeatureLossThreshold workerFeatureLossThreshold
    by_cases hm : meshHighDetail
    · rw [if_pos hm, if_pos hm]; norm_num
    · rw [if_neg hm, if_neg hm]; norm_num
  rcases h with hd | hl
  · left
    rcases hd with h1 | h2 | h3
    · exact Or.inl (lt_of_le_of_lt hdist h1)
    · exact Or.inr (Or.inl (lt_of_le_of_lt hdist h2))
    · exact Or.inr (Or.inr (lt_of_le_of_lt hdist h3))
  · right
    exact lt_of_le_of_lt hloss hl

/-- C2 witness: a candidate with a doubled x extent is rejected by the worker
and hence also by the synchronous loop. -/
theorem c2_witness :
    workerCandidateRejected False ⟨1, 1, 1⟩ ⟨2, 1, 1⟩ balancedProfile balancedProfile ∧
      syncCandidateRejected False ⟨1, 1, 1⟩ ⟨2, 1, 1⟩ balancedProfile balancedProfile := by
  have hw : workerCandidateRejected False ⟨1, 1, 1⟩ ⟨2, 1, 1⟩
      balancedProfile balancedProfile := by
    left
    unfold distortionExceeds workerDistortionThreshold
    rw [if_neg not_false]
    left
    have habs : |(1 : ℝ)| = 1 := abs_of_nonneg (by norm_num)
    norm_num [habs]
  exact ⟨hw, c2_amended_worker_more_permissive False ⟨1, 1, 1⟩ ⟨2, 1, 1⟩
    balancedProfile balancedProfile hw⟩

theorem lossRatio_detail_pair :
    (lossAnalysisOf detailOriginalProfile detailCandidateProfile).lossRatio = 9 / 80 := by
  unfold lossAnalysisOf detailOriginalProfile detailCandidateProfile
  norm_num

/-- C3 counterexample: in the retry loop of the synchronous Adaptive
Simplifier, feature-loss rejection compares the loss ratio against 0.1 (high
detail) / 0.15, not 0.12 / 0.18.  For a high-detail original with candidate
loss ratio 0.1125 the loop flags feature loss although the ratio does not
exceed the claimed threshold 0.12. -/
theorem c3_counterexample :
    syncHasLostFeatures True detailOriginalProfile detailCandidateProfile ∧
      detailOriginalProfile.isHighDetail ∧
      ¬ ((lossAnalysisOf detailOriginalProfile detailCandidateProfile).lossRatio >
          12 / 100) := by
  refine ⟨?_, trivial, ?_⟩
  · unfold syncHasLostFeatures syncFeatureLossThreshold
    rw [lossRatio_detail_pair, if_pos trivial]
    norm_num
  · rw [lossRatio_detail_pair]
    norm_num

/-- C3 amended: the retry loop rejects a candidate for feature loss exactly
when the combined loss ratio (small x 0.35 + thin x 0.45 + complexity change
x 0.20, as computed by `checkForLostFeatures`) exceeds 0.1 when
`meshAnalysis.isHighDetail` (the post-dedup geometry profile) holds and 0.15
otherwise; the 0.12/0.18 thresholds exist only inside `checkForLostFeatures`'
`featuresLost` flag, which the loop never reads. -/
theorem c3_amended_loop_threshold (meshHighDetail : Prop)
    (originalP candP : FeatureProfile) :
    syncHasLostFeatures meshHighDetail originalP candP ↔
      (1 - (candP.smallFeatureCount : ℝ) / max 1 (originalP.smallFeatureCount : ℝ)) *
            (35 / 100) +
          (1 - (candP.thinFeatureCount : ℝ) / max 1 (originalP.thinFeatureCount : ℝ)) *
            (45 / 100) +
          (|candP.geometryComplexity - originalP.geometryComplexity| /
              max (1 / 10) originalP.geometryComplexity) * (2 / 10) >
        (if meshHighDetail then (1 : ℝ) / 10 else 15 / 100) :=
  Iff.rfl

theorem mkProfile_props (s t tt : Nat) (cr : ℝ) (hcr : 0 ≤ cr) (htt : 0 < tt) :
    (mkProfile s t tt cr).geometryComplexity =
      max 0 (min 1 ((s : ℝ) / (tt : ℝ) * (6 / 10) + (t : ℝ) / (tt : ℝ) * (4 / 10) +
        cr * (5 / 10))) ∧
      ((mkProfile s t tt cr).isHighDetail ↔
        (mkProfile s t tt cr).geometryComplexity > 4 / 10) := by
  have h1le : (1 : ℝ) ≤ (tt : ℝ) := by exact_mod_cast htt
  have hmax : max (1 : ℝ) (tt : ℝ) = (tt : ℝ) := max_eq_right h1le
  have hd1 : (0 : ℝ) ≤ (s : ℝ) / max 1 (tt : ℝ) :=
    div_nonneg (Nat.cast_nonneg _) (le_trans zero_le_one (le_max_left _ _))
  have hd2 : (0 : ℝ) ≤ (t : ℝ) / max 1 (tt : ℝ) :=
    div_nonneg (Nat.cast_nonneg _) (le_trans zero_le_one (le_max_left _ _))
  have hraw : (0 : ℝ) ≤ (s : ℝ) / max 1 (tt : ℝ) * (6 / 10) +
      (t : ℝ) / max 1 (tt : ℝ) * (4 / 10) + cr * (5 / 10) := by
    have h1 := mul_nonneg hd1 (by norm_num : (0 : ℝ) ≤ 6 / 10)
    have h2 := mul_nonneg hd2 (by norm_num : (0 : ℝ) ≤ 4 / 10)
    have h3 := mul_nonneg hcr (by norm_num : (0 : ℝ) ≤ 5 / 10)
    linarith
  constructor
  · show min 1 ((s : ℝ) / max 1 (tt : ℝ) * (6 / 10) + (t : ℝ) / max 1 (tt : ℝ) * (4 / 10) +
        cr * (5 / 10)) = _
    rw [hmax] at hraw ⊢
    exact (max_eq_right (le_min zero_le_one hraw)).symm
  · show ((s : ℝ) / max 1 (tt : ℝ) * (6 / 10) + (t : ℝ) / max 1 (tt : ℝ) * (4 / 10) +
        cr * (5 / 10) > 4 / 10) ↔
      (min 1 ((s : ℝ) / max 1 (tt : ℝ) * (6 / 10) + (t : ℝ) / max 1 (tt : ℝ) * (4 / 10) +
        cr * (5 / 10)) > 4 / 10)
    constructor
    · intro hgt
      rcases le_total ((s : ℝ) / max 1 (tt : ℝ) * (6 / 10) +
          (t : ℝ) / max 1 (tt : ℝ) * (4 / 10) + cr * (5 / 10)) 1 with hle | hge
      · rwa [min_eq_right hle]
      · rw [min_eq_left hge]; norm_num
    · intro hgt
      exact lt_of_lt_of_le hgt (min_le_right _ _)

/-- C9: `analyzeFeatureSizes` returns
`geometryComplexity = clamp(smallRatio*0.6 + thinRatio*0.4 + complexityRatio*0.5, 0, 1)`
with `smallRatio`/`thinRatio` the fractions of sampled triangles flagged
small/thin (the lower clamp is vacuous because the sum is nonnegative, so
`Math.min(1, ...)` realizes the full clamp), and `isHighDetail` holds exactly
when the returned `geometryComplexity` exceeds 0.4 (the source compares the
uncapped sum, which is equivalent since `0.4 < 1`). -/
theorem c9_complexity_formula (g : BufferGeom) (draws : List Nat)
    (h : 0 < (analyzeFeatureSizes g draws).totalFeatures) :
    (analyzeFeatureSizes g draws).geometryComplexity =
      max 0 (min 1
        (((analyzeFeatureSizes g draws).smallFeatureCount : ℝ) /
            ((analyzeFeatureSizes g draws).totalFeatures : ℝ) * (6 / 10) +
          ((analyzeFeatureSizes g draws).thinFeatureCount : ℝ) /
            ((analyzeFeatureSizes g draws).totalFeatures : ℝ) * (4 / 10) +
          (analyzeFeatureSizes g draws).complexityRatio * (5 / 10))) ∧
      ((analyzeFeatureSizes g draws).isHighDetail ↔
        (analyzeFeatureSizes g draws).geometryComplexity > 4 / 10) := by
  have hcr : (0 : ℝ) ≤ analyzerComplexityRatio g draws := by
    unfold analyzerComplexityRatio
    exact div_nonneg (Nat.cast_nonneg _) (le_trans zero_le_one (le_max_left _ _))
  exact mkProfile_props (analyzerCounts g draws).1 (analyzerCounts g draws).2.1
    (analyzerTotal g draws) (analyzerComplexityRatio g draws) hcr h

/-- C9 witness: sampling the single triangle once satisfies the theorem. -/
theorem c9_witness :
    0 < (analyzeFeatureSizes witnessTriangleGeom [0]).totalFeatures ∧
      ((analyzeFeatureSizes witnessTriangleGeom [0]).geometryComplexity =
        max 0 (min 1
          (((analyzeFeatureSizes witnessTriangleGeom [0]).smallFeatureCount : ℝ) /
              ((analyzeFeatureSizes witnessTriangleGeom [0]).totalFeatures : ℝ) * (6 / 10) +
            ((analyzeFeatureSizes witnessTriangleGeom [0]).thinFeatureCount : ℝ) /
              ((analyzeFeatureSizes witnessTriangleGeom [0]).totalFeatures : ℝ) * (4 / 10) +
            (analyzeFeatureSizes witnessTriangleGeom [0]).complexityRatio * (5 / 10))) ∧
        ((analyzeFeatureSizes witnessTriangleGeom [0]).isHighDetail ↔
          (analyzeFeatureSizes witnessTriangleGeom [0]).geometryComplexity > 4 / 10)) :=
  ⟨by decide, c9_complexity_formula witnessTriangleGeom [0] (by decide)⟩

theorem headD_append_of_ne_nil {α : Type} (ns l : List α) (d : α) (h : ns ≠ []) :
    (ns ++ l).headD d = ns.headD d := by
  cases ns with
  | nil => exact absurd rfl h
  | cons a t => rfl

theorem insertNormal_spec (cd : ℝ) (n : Vec3) :
    ∀ gs : List NormalGroup, GroupsWF gs →
      (insertNormal cd gs n).map NormalGroup.normals =
          specInsertCluster cd (gs.map NormalGroup.normals) n ∧
        GroupsWF (insertNormal cd gs n) := by
  intro gs
  induction gs with
  | nil =>
    intro _
    refine ⟨rfl, ?_⟩
    intro gp hgp
    rcases List.mem_singleton.mp hgp with rfl
    exact ⟨List.cons_ne_nil _ _, rfl⟩
  | cons gp rest ih =>
    intro hwf
    have hgp := hwf gp (List.mem_cons_self gp rest)
    have hrest : GroupsWF rest := fun q hq => hwf q (List.mem_cons_of_mem gp hq)
    obtain ⟨ihmap, ihwf⟩ := ih hrest
    by_cases hc : vdot n gp.reference > cd
    · constructor
      · simp only [insertNormal, List.map_cons, specInsertCluster, hgp.2, if_pos hc]
      · simp only [insertNormal, if_pos hc]
        intro q hq
        rcases List.mem_cons.mp hq with rfl | hq
        · refine ⟨?_, ?_⟩
          · intro habs
            exact hgp.1 (List.append_eq_nil.mp habs).1
          · rw [headD_append_of_ne_nil _ _ _ hgp.1]
            exact hgp.2
        · exact hwf q (List.mem_cons_of_mem gp hq)
    · constructor
      · simp only [insertNormal, List.map_cons, specInsertCluster, hgp.2, if_neg hc, ihmap]
      · simp only [insertNormal, if_neg hc]
        intro q hq
        rcases List.mem_cons.mp hq with rfl | hq
        · exact hgp
        · exact ihwf q hq

theorem foldl_insert_spec (cd : ℝ) (ns : List Vec3) :
    ∀ gs : List NormalGroup, GroupsWF gs →
      (ns.foldl (insertNormal cd) gs).map NormalGroup.normals =
          ns.foldl (specInsertCluster cd) (gs.map NormalGroup.normals) ∧
        GroupsWF (ns.foldl (insertNormal cd) gs) := by
  induction ns with
  | nil => intro gs hwf; exact ⟨rfl, hwf⟩
  | cons n rest ih =>
    intro gs hwf
    obtain ⟨hmap, hwf'⟩ := insertNormal_spec cd n gs hwf
    obtain ⟨ihmap, ihwf⟩ := ih (insertNormal cd gs n) hwf'
    refine ⟨?_, ihwf⟩
    simp only [List.foldl_cons, ihmap, hmap]

theorem normalGroups_spec (cd : ℝ) (ns : List Vec3) :
    (normalGroups cd ns).map NormalGroup.normals = specClusters cd ns ∧
      GroupsWF (normalGroups cd ns) := by
  have h := foldl_insert_spec cd ns [] (fun q hq => absurd hq (List.not_mem_nil q))
  exact ⟨h.1, h.2⟩

theorem insertNormal_ne_nil (cd : ℝ) (gs : List NormalGroup) (n : Vec3) :
    insertNormal cd gs n ≠ [] := by
  cases gs with
  | nil => exact List.cons_ne_nil _ _
  | cons gp rest =>
    simp only [insertNormal]
    split
    · exact List.cons_ne_nil _ _
    · exact List.cons_ne_nil _ _

theorem foldl_insert_ne_nil (cd : ℝ) (ns : List Vec3) :
    ∀ gs : List NormalGroup, gs ≠ [] → ns.foldl (insertNormal cd) gs ≠ [] := by
  induction ns with
  | nil => intro gs h; exact h
  | cons n rest ih =>
    intro gs _
    exact ih (insertNormal cd gs n) (insertNormal_ne_nil cd gs n)

theorem normalGroups_ne_nil (cd : ℝ) (ns : List Vec3) (h : ns ≠ []) :
    normalGroups cd ns ≠ [] := by
  cases ns with
  | nil => exact absurd rfl h
  | cons n rest =>
    show (rest.foldl (insertNormal cd) (insertNormal cd [] n)) ≠ []
    exact foldl_insert_ne_nil cd rest _ (insertNormal_ne_nil cd [] n)

theorem foldl_max_spec (gs : List NormalGroup) :
    ∀ d : NormalGroup,
      (gs.foldl (fun d gp => if gp.normals.length > d.normals.length then gp else d) d = d ∨
        gs.foldl (fun d gp => if gp.normals.length > d.normals.length then gp else d) d ∈ gs) ∧
      d.normals.length ≤
        (gs.foldl (fun d gp => if gp.normals.length > d.normals.length then gp else d)
          d).normals.length ∧
      ∀ gp ∈ gs, gp.normals.length ≤
        (gs.foldl (fun d gp => if gp.normals.length > d.normals.length then gp else d)
          d).normals.length := by
  induction gs with
  | nil =>
    intro d
    exact ⟨Or.inl rfl, le_refl _, fun gp hgp => absurd hgp (List.not_mem_nil gp)⟩
  | cons gp rest ih =>
    intro d
    simp only [List.foldl_cons]
    by_cases hc : gp.normals.length > d.normals.length
    · rw [if_pos hc]
      obtain ⟨hmem, hle, hall⟩ := ih gp
      refine ⟨?_, le_trans (le_of_lt hc) hle, ?_⟩
      · rcases hmem with heq | hmem
        · refine Or.inr ?_
          rw [heq]
          exact List.mem_cons_self gp rest
        · exact Or.inr (List.mem_cons_of_mem gp hmem)
      · intro q hq
        rcases List.mem_cons.mp hq with rfl | hq
        · exact hle
        · exact hall q hq
    · rw [if_neg hc]
      obtain ⟨hmem, hle, hall⟩ := ih d
      push_neg at hc
      refine ⟨?_, hle, ?_⟩
      · rcases hmem with heq | hmem
        · exact Or.inl heq
        · exact Or.inr (List.mem_cons_of_mem gp hmem)
      · intro q hq
        rcases List.mem_cons.mp hq with rfl | hq
        · exact le_trans hc hle
        · exact hall q hq

theorem dominantGroup_spec (gs : List NormalGroup) (h : gs ≠ []) :
    dominantGroup gs ∈ gs ∧
      ∀ gp ∈ gs, gp.normals.length ≤ (dominantGroup gs).normals.length := by
  cases gs with
  | nil => exact absurd rfl h
  | cons g0 rest =>
    obtain ⟨hmem, _, hall⟩ := foldl_max_spec (g0 :: rest) g0
    constructor
    · rcases hmem with heq | hmem
      · rw [dominantGroup, List.headD_cons, heq]
        exact List.mem_cons_self g0 rest
      · rw [dominantGroup, List.headD_cons]
        exact hmem
    · intro gp hgp
      rw [dominantGroup, List.headD_cons]
      exact hall gp hgp

/-- C8: for every vertex touched by at least one triangle, the normal written
by `toCreasedNormals` is the normalized sum (the normalized average: same
direction) of a cluster of the vertex's incident face normals that is largest
among the clusters produced by the spec's greedy clustering, where a face
normal joins the first cluster whose reference normal's dot product with it
exceeds `cos(creaseAngleDegrees)` and otherwise founds a new cluster with
itself as reference. -/
theorem c8_creased_normal_largest_cluster (g : BufferGeom) (creaseAngle : ℝ) (v : Nat)
    (h : incidentNormals g v ≠ []) :
    ∃ c ∈ specClusters (creaseDotOf creaseAngle) (incidentNormals g v),
      (∀ c' ∈ specClusters (creaseDotOf creaseAngle) (incidentNormals g v),
        c'.length ≤ c.length) ∧
      toCreasedNormals g creaseAngle v = vnormalize (vsum c) := by
  obtain ⟨hmap, _⟩ := normalGroups_spec (creaseDotOf creaseAngle) (incidentNormals g v)
  have hne := normalGroups_ne_nil (creaseDotOf creaseAngle) (incidentNormals g v) h
  obtain ⟨hdommem, hdommax⟩ :=
    dominantGroup_spec (normalGroups (creaseDotOf creaseAngle) (incidentNormals g v)) hne
  refine ⟨(dominantGroup (normalGroups (creaseDotOf creaseAngle)
    (incidentNormals g v))).normals, ?_, ?_, ?_⟩
  · rw [← hmap]
    exact List.mem_map_of_mem NormalGroup.normals hdommem
  · intro c' hc'
    rw [← hmap] at hc'
    obtain ⟨gp, hgp, rfl⟩ := List.mem_map.mp hc'
    exact hdommax gp hgp
  · unfold toCreasedNormals creasedNormal
    cases hcase : incidentNormals g v with
    | nil => exact absurd hcase h
    | cons a t => rfl

theorem incidentNormals_witness_eq :
    incidentNormals witnessTriangleGeom 0 = [faceNormal witnessTriangleGeom 0] := rfl

/-- C8 witness: vertex 0 of the single right triangle, crease angle 10
degrees. -/
theorem c8_witness :
    incidentNormals witnessTriangleGeom 0 ≠ [] ∧
      ∃ c ∈ specClusters (creaseDotOf 10) (incidentNormals witnessTriangleGeom 0),
        (∀ c' ∈ specClusters (creaseDotOf 10) (incidentNormals witnessTriangleGeom 0),
          c'.length ≤ c.length) ∧
        toCreasedNormals witnessTriangleGeom 10 0 = vnormalize (vsum c) := by
  have hne : incidentNormals witnessTriangleGeom 0 ≠ [] := by
    rw [incidentNormals_witness_eq]
    exact List.cons_ne_nil _ _
  exact ⟨hne, c8_creased_normal_largest_cluster witnessTriangleGeom 10 0 hne⟩

theorem simplifyLoop_accepted_lt (env : SimplifyEnv) (n : Nat) :
    ∀ (fuel attempt : Nat) (ratio : ℚ) (bestVC : Nat) (modified : Bool)
      (res : SyncResult) (vc : Nat),
      simplifyLoop env n fuel attempt ratio bestVC modified = Except.ok res →
      res.acceptedVertexCount = some vc → vc < n := by
  intro fuel
  induction fuel with
  | zero =>
    intro attempt ratio bestVC modified res vc hrun hacc
    simp only [simplifyLoop] at hrun
    injection hrun with h
    rw [← h] at hacc
    exact Option.noConfusion hacc
  | succ fuel ih =>
    intro attempt ratio bestVC modified res vc hrun hacc
    simp only [simplifyLoop] at hrun
    split at hrun
    · injection hrun with h
      rw [← h] at hacc
      exact Option.noConfusion hacc
    · split at hrun
      · exact Except.noConfusion hrun
      · rename_i cand heq
        split at hrun
        · exact ih _ _ _ _ _ _ hrun hacc
        · split at hrun
          · exact ih _ _ _ _ _ _ hrun hacc
          · split at hrun
            · split at hrun
              · injection hrun with h
                rw [← h] at hacc
                exact Option.noConfusion hacc
              · exact ih _ _ _ _ _ _ hrun hacc
            · split at hrun
              · rename_i hlt hnotle
                injection hrun with h
                rw [← h] at hacc
                injection hacc with h2
                rw [← h2]
                omega
              · exact ih _ _ _ _ _ _ hrun hacc

/-- C5: whenever the Adaptive Simplifier accepts a simplification result and
replaces `mesh.geometry` with the candidate, the accepted vertex count is
strictly below the original vertex count; a candidate whose vertex count is
not strictly below the original is rejected by the guard of line 220 and can
never be the accepted one. -/
theorem c5_accepted_strictly_smaller (env : SimplifyEnv) (cfg : OptimizationConfig)
    (n : Nat) (res : SyncResult) (vc : Nat)
    (hrun : simplifyMeshSync env ⟨some ⟨some n⟩⟩ cfg = Except.ok res)
    (hacc : res.acceptedVertexCount = some vc) :
    vc < n := by
  simp only [simplifyMeshSync] at hrun
  split at hrun
  · split at hrun
    · injection hrun with h
      rw [← h] at hacc
      exact Option.noConfusion hacc
    · rename_i res' heq
      injection hrun with h
      rw [← h] at hacc
      exact simplifyLoop_accepted_lt env n _ _ _ _ _ res' vc heq hacc
  · injection hrun with h
    rw [← h] at hacc
    exact Option.noConfusion hacc

theorem acceptCandidate_not_rejected :
    ¬ syncCandidateRejected acceptEnv.meshProfile.isHighDetail
        acceptEnv.originalBoxSize acceptCandidate.newSize
        acceptCandidate.originalProfile acceptCandidate.candidateProfile := by
  intro hrej
  rcases hrej with hd | hl
  · simp only [acceptEnv, acceptCandidate] at hd
    unfold distortionExceeds syncDistortionThreshold at hd
    simp only [simpleMeshProfile] at hd
    rw [if_neg not_false] at hd
    rcases hd with h | h | h <;> norm_num at h
  · simp only [acceptEnv, acceptCandidate] at hl
    unfold syncHasLostFeatures syncFeatureLossThreshold at hl
    simp only [simpleMeshProfile] at hl
    rw [lossRatio_balanced_self, if_neg not_false] at hl
    norm_num at hl

theorem acceptRun_loop :
    simplifyLoop acceptEnv 100 10 0 (13 / 20) 100 false =
      Except.ok ⟨true, 60, some 60⟩ := by
  have hfloor : ⌊(100 : ℚ) * (13 / 20)⌋ = 65 := by norm_num
  rw [show (10 : ℕ) = 9 + 1 from rfl]
  unfold simplifyLoop
  simp only [hfloor, Nat.cast_ofNat]
  rw [if_neg (by decide : ¬ ((100 : ℤ) ≤ min 65 ((100 : ℤ) - 1)))]
  show (match acceptEnv.modifyResult 0 (min 65 ((100 : ℤ) - 1)) with
    | Except.error e => Except.error e
    | Except.ok cand => _) = _
  rw [show acceptEnv.modifyResult 0 (min 65 ((100 : ℤ) - 1)) =
    Except.ok acceptCandidate from rfl]
  show (if (100 : ℕ) ≤ acceptCandidate.vertexCount then _
    else if (100 : ℕ) < acceptCandidate.vertexCount then _
    else if syncCandidateRejected acceptEnv.meshProfile.isHighDetail
        acceptEnv.originalBoxSize acceptCandidate.newSize
        acceptCandidate.originalProfile acceptCandidate.candidateProfile then _
    else if acceptCandidate.vertexCount < 100 then
      (Except.ok (⟨true, acceptCandidate.vertexCount,
        some acceptCandidate.vertexCount⟩ : SyncResult) : Except Unit SyncResult)
    else _) = Except.ok (⟨true, 60, some 60⟩ : SyncResult)
  rw [if_neg (by decide : ¬ ((100 : ℕ) ≤ acceptCandidate.vertexCount)),
    if_neg (by decide : ¬ ((100 : ℕ) < acceptCandidate.vertexCount)),
    if_neg acceptCandidate_not_rejected,
    if_pos (by decide : acceptCandidate.vertexCount < 100)]
  rfl

theorem acceptRun :
    simplifyMeshSync acceptEnv ⟨some ⟨some 100⟩⟩ simplifyOnlyConfig =
      Except.ok ⟨true, 60, some 60⟩ := by
  have hratio : syncInitialTargetRatio acceptEnv.meshProfile.geometryComplexity
      simplifyOnlyConfig.simplificationRatio = 13 / 20 := by
    simp only [acceptEnv, simpleMeshProfile, simplifyOnlyConfig]
    unfold syncInitialTargetRatio syncSimplificationFactor
    rw [if_neg (by norm_num : ¬ ((0 : ℝ) > 7 / 10)),
      if_neg (by norm_num : ¬ ((0 : ℝ) > 4 / 10))]
    rw [show (1 : ℚ) - 7 / 10 * (1 / 2) = 13 / 20 by norm_num,
      max_eq_left (by norm_num : (6 : ℚ) / 10 ≤ 13 / 20)]
  show (match simplifyLoop acceptEnv 100 syncMaxAttempts 0
      (syncInitialTargetRatio acceptEnv.meshProfile.geometryComplexity
        simplifyOnlyConfig.simplificationRatio) 100 false with
    | Except.error _ => (Except.ok (⟨false, 100, none⟩ : SyncResult) : Except JsError SyncResult)
    | Except.ok res => Except.ok res) = Except.ok (⟨true, 60, some 60⟩ : SyncResult)
  rw [hratio, show syncMaxAttempts = 10 from rfl, acceptRun_loop]

/-- C5 witness: a concrete 100-vertex mesh whose modifier yields an accepted
60-vertex candidate; the theorem gives `60 < 100`. -/
theorem c5_witness :
    simplifyMeshSync acceptEnv ⟨some ⟨some 100⟩⟩ simplifyOnlyConfig =
        Except.ok ⟨true, 60, some 60⟩ ∧
      (⟨true, 60, some 60⟩ : SyncResult).acceptedVertexCount = some 60 ∧
      60 < 100 :=
  ⟨acceptRun, rfl,
    c5_accepted_strictly_smaller acceptEnv simplifyOnlyConfig 100
      ⟨true, 60, some 60⟩ 60 acceptRun rfl⟩

/-- C6 failing input: for a mesh whose geometry lacks a position attribute
and a configuration with `simplifyGeometry` enabled, `simplifyMesh` throws a
TypeError out to its caller: line 126 reads
`originalGeometry.attributes.position.count` before the position guard of
line 161 and outside the `try` of lines 159-317, contradicting the claim
that all faults are caught and a boolean returned. -/
theorem c6_missing_position_throws :
    simplifyMeshSync trivialEnv noPositionMesh simplifyOnlyConfig =
      Except.error JsError.typeError := rfl
